import Mathlib

/-!
Verification of the layer-resolution, validation and product-assembly pipeline of
`mapactionpy_controller` against its natural-language specification.

The Python sources are shallowly embedded:

* `crash_move_folder.py` : `CrashMoveFolder.verify_paths` / `verify_mxds`
* `recipe_layer.py`      : `RecipeLayer._check_lyr_is_in_recipe`, `_data_finder`,
  `_check_found_files`, `_calc_data_source_checksum`, `checker_data_against_schema`,
  `calc_extent`
* `plugin_base.py`       : `BaseRunnerPlugin._get_template_by_aspect_ratio`,
  `get_next_map_version_number`, `_check_paths_for_zip_contents`, `zip_exported_files`

The file system is modelled by an oracle structure `FS` (existence tests, directory
listings and file contents), Python exceptions by the `PyError` type, and the MD5
digest by an explicit function parameter `md5` applied to the concatenated bytes
(incremental `hash.update` calls are equivalent to hashing the concatenation).
Regular expressions are embedded as `RegularExpression Char` abstract syntax trees;
`re.match` with `re.IGNORECASE` is modelled by case-folding both sides and testing
whether some prefix of the candidate is in the language of the expression.
-/

set_option linter.unusedVariables false

namespace MapAction

/-- Python truthiness of an optional string (`None` and `""` are falsy). -/
def pyTruthy : Option String → Bool
  | none => false
  | some s => !(s = "")

/-- The string carried by an optional string, with `""` standing for `None`. -/
def pyStr : Option String → String
  | none => ""
  | some s => s

/-- Python `str.startswith`, computed on the character lists. -/
def py_startswith (s t : String) : Bool :=
  decide (s.toList.take t.toList.length = t.toList)

/-- Python `str.endswith`, computed on the character lists. -/
def py_endswith (s t : String) : Bool :=
  decide (s.toList.reverse.take t.toList.length = t.toList.reverse)

/-- `os.path.join` for a POSIX separator, two-argument form. -/
def os_path_join (a b : String) : String :=
  if py_startswith b "/" then b
  else if a = "" || py_endswith a "/" then a ++ b
  else a ++ "/" ++ b

/-- The characters after the last `/`: the `os.path.basename` of a POSIX path. -/
def afterLastSep (cs : List Char) : List Char :=
  cs.foldl (fun acc c => if c = '/' then [] else acc ++ [c]) []

/-- `os.path.basename` for a POSIX path. -/
def os_path_basename (p : String) : String :=
  String.mk (afterLastSep p.toList)

/-- Index of the last occurrence of a character in a list, if any. -/
def rfindIdx (ch : Char) (cs : List Char) : Option Nat :=
  cs.enum.foldl (fun acc ic => if ic.2 = ch then some ic.1 else acc) none

/-- `os.path.splitext` for a POSIX path: splits off the extension at the last dot of
the final path segment, except that dots that merely lead the segment do not start
an extension. -/
def os_path_splitext (p : String) : String × String :=
  let cs := p.toList
  let sepIdx : Int := match rfindIdx '/' cs with | none => -1 | some i => (i : Int)
  match rfindIdx '.' cs with
  | none => (p, "")
  | some dotIdx =>
    if sepIdx < (dotIdx : Int) then
      let nameStart : Nat := (sepIdx + 1).toNat
      if ((cs.drop nameStart).take (dotIdx - nameStart)).any (fun c => c ≠ '.') then
        (String.mk (cs.take dotIdx), String.mk (cs.drop dotIdx))
      else (p, "")
    else (p, "")

/-- Lexicographic comparison of character lists by code point, the order Python
uses to compare strings. -/
def lexLe : List Char → List Char → Bool
  | [], _ => true
  | _ :: _, [] => false
  | a :: as, b :: bs => if a < b then true else if a = b then lexLe as bs else false

/-- The string order Python `sorted` sorts by. -/
def pyStrLe (a b : String) : Prop :=
  lexLe a.toList b.toList = true

instance : DecidableRel pyStrLe := fun a b => instDecidableEqBool _ _

/-- Python `sorted` on strings: stable ascending sort (insertion sort). -/
def pySorted (l : List String) : List String :=
  l.insertionSort pyStrLe

/-- File-system oracle.  `globStar base` returns the results of
`glob.glob(base + "*")` and `content` the bytes of a file, both as the operating
system reports them (`globStar` in arbitrary enumeration order). -/
structure FS where
  isFile : String → Bool
  isDir : String → Bool
  pathExists : String → Bool
  globStar : String → List String
  content : String → List Nat

/-- Python exceptions raised by the embedded code.  `missingData` stands for the
`ValueError(FixMissingGISDataTask(self, cmf))` raised on zero matches (the task
carries the layer name and the crash-move-folder path); `ambiguousData` for the
`ValueError(FixMultipleMatchingFilesTask(self, cmf, found_datasources))` raised on
multiple matches (the task stores `sorted(datasources_list)`); `emptyPackage` and
`missingArtifact` for the two `ValueError`s of `_check_paths_for_zip_contents`. -/
inductive PyError where
  | valueError (msg : String)
  | typeError (msg : String)
  | indexError (msg : String)
  | missingData (layerName cmfPath : String)
  | ambiguousData (layerName cmfPath : String) (datasources : List String)
  | emptyPackage
  | missingArtifact (erroneous_paths : List String)
deriving DecidableEq, Repr

end MapAction

deriving instance DecidableEq for RegularExpression

deriving instance DecidableEq for Except

namespace MapAction

/-- Case-folding of a regular expression: every literal character is lowered, which
together with lowering the subject string models `re.IGNORECASE`. -/
def foldRE : RegularExpression Char → RegularExpression Char
  | .zero => .zero
  | .epsilon => .epsilon
  | .char c => .char c.toLower
  | .plus P Q => .plus (foldRE P) (foldRE Q)
  | .comp P Q => .comp (foldRE P) (foldRE Q)
  | .star P => .star (foldRE P)

/-- The lower-cased character list of a string. -/
def caseFold (s : String) : List Char :=
  s.toList.map Char.toLower

/-- `re.match(pattern, s, re.IGNORECASE)` viewed as a Boolean: some prefix of the
case-folded subject belongs to the language of the case-folded pattern.
`re.match` anchors at position zero only, it does not search the interior. -/
def pyReMatchCI (r : RegularExpression Char) (s : String) : Bool :=
  (List.range ((caseFold s).length + 1)).any fun k => (foldRE r).rmatch ((caseFold s).take k)

/-- `RecipeLayer` (from `recipe_layer.py`).  Fields are those the embedded methods
read or write; `reg_exp` is embedded as a regular-expression syntax tree. -/
structure RecipeLayer where
  name : String
  reg_exp : RegularExpression Char
  definition_query : String
  schema_definition : String
  layer_file_path : String
  layer_file_checksum : String
  data_source_path : Option String
  data_name : Option String
  data_source_checksum : String
  extent : Option (ℚ × ℚ × ℚ × ℚ)
  crs : Option String
deriving DecidableEq

/-- Modelled from the spec: `MapRecipe` (its module is not part of the sources; §3
of the spec lists the aggregated state).  `layers` is the value of `all_layers()`;
the remaining fields are the packaging state used by `zip_exported_files`. -/
structure MapRecipe where
  layers : List RecipeLayer
  export_path : String
  core_file_name : String
  zip_file_contents : List String
deriving DecidableEq

/-- `CrashMoveFolder` (from `crash_move_folder.py`): the descriptor paths, already
joined onto the folder root exactly as the constructor stores them. -/
structure CrashMoveFolder where
  path : String
  original_data : String
  active_data : String
  layer_rendering : String
  mxd_templates : String
  mxd_products : String
  qgis_templates : String
  export_dir : String
  dnc_definition : String
  layer_nc_definition : String
  mxd_nc_definition : String
  map_definitions : String
  layer_properties : String
  arcgis_version : String
  categories : List String

/-- `CrashMoveFolder.verify_mxds`.  The source computes `templateFileName` for every
category and orientation but then tests
`os.path.exists(os.path.join(self.mxd_templates, ))` — a one-argument join, so the
existence test is applied to the templates directory itself and the computed
`templateFileName` is never used. -/
def verify_mxds (fs : FS) (cmf : CrashMoveFolder) : Bool :=
  cmf.categories.foldl
    (fun result category =>
      ["landscape", "portrait"].foldl
        (fun result orientation =>
          let templateFileName := cmf.arcgis_version ++ "_" ++ category ++ "_" ++ orientation
          let templateFileName :=
            if category == "reference" then templateFileName ++ "_bottom" else templateFileName
          let templateFileName := templateFileName ++ ".mxd"
          if fs.pathExists cmf.mxd_templates == false then false else result)
        result)
    true

/-- `CrashMoveFolder.verify_paths`: all of seven directory tests, five file tests
and `verify_mxds`. -/
def verify_paths (fs : FS) (cmf : CrashMoveFolder) : Bool :=
  [fs.isDir cmf.original_data,
   fs.isDir cmf.active_data,
   fs.isDir cmf.layer_rendering,
   fs.isDir cmf.mxd_templates,
   fs.isDir cmf.mxd_products,
   fs.isDir cmf.qgis_templates,
   fs.isDir cmf.export_dir,
   fs.pathExists cmf.dnc_definition,
   fs.pathExists cmf.layer_nc_definition,
   fs.pathExists cmf.mxd_nc_definition,
   fs.pathExists cmf.map_definitions,
   fs.pathExists cmf.layer_properties,
   verify_mxds fs cmf].all id

/-- The message of the `ValueError` raised by `_check_lyr_is_in_recipe`. -/
def foreign_layer_msg (layerName : String) : String :=
  "Attempting to update a layer (\"" ++ layerName ++ "\") which is not part of the recipe"

/-- The message of the `ValueError` raised by the resolution guard of
`checker_data_against_schema`. -/
def check_schema_guard_msg : String :=
  "Cannot check data schema until relevant data has been found." ++
    " Please use `get_data_finder()` first."

/-- The message of the `ValueError` raised by the resolution guard of
`calc_extent`. -/
def calc_extent_guard_msg : String :=
  "Cannot calculate bounding box until relevant data has been found." ++
    " Please use `get_data_finder()` first."

/-- `RecipeLayer._check_lyr_is_in_recipe`: raise `ValueError` unless the layer is a
member of `recipe.all_layers()` (Python `in` uses the structural `__eq__`). -/
def _check_lyr_is_in_recipe (self : RecipeLayer) (recipe : MapRecipe) : Except PyError Unit :=
  if self ∈ recipe.layers then Except.ok ()
  else Except.error (PyError.valueError (foreign_layer_msg self.name))

/-- The `found_files` list built inside `_data_finder`: the available files whose
name (with extension) matches `reg_exp` case-insensitively at position zero, each
paired as `(full_path, filename_without_extension)`. -/
def foundFiles (self : RecipeLayer) (all_gis_files : List (String × String)) :
    List (String × String) :=
  (all_gis_files.filter fun pr => pyReMatchCI self.reg_exp pr.2).map
    fun pr => (pr.1, (os_path_splitext pr.2).1)

/-- `RecipeLayer._check_found_files`: zero found files raise the missing-data task,
two or more raise the multiple-matching-files task carrying the sorted path list. -/
def _check_found_files (self : RecipeLayer) (found_files : List (String × String))
    (cmf : CrashMoveFolder) : Except PyError Unit :=
  if found_files = [] then
    Except.error (PyError.missingData self.name cmf.path)
  else if 1 < found_files.length then
    Except.error (PyError.ambiguousData self.name cmf.path
      (pySorted (found_files.map Prod.fst)))
  else Except.ok ()

/-- `RecipeLayer._calc_data_source_checksum`.  For a falsy path the file list stays
empty; for a file, the siblings `glob.glob(base + "*")` that are regular files and
do not end in `.lock`; for a directory the source evaluates
`os.path.join(f_path, f_name)` where `f_name` is the whole filename *list* of an
`os.walk` triple, which raises `TypeError` as soon as the first triple is produced.
The list is sorted and the digest of the concatenated bytes returned. -/
def _calc_data_source_checksum (md5 : List Nat → String) (fs : FS)
    (data_source_path : Option String) : Except PyError String :=
  let f_list : Except PyError (List String) :=
    if pyTruthy data_source_path then
      let p := pyStr data_source_path
      if fs.isFile p then
        Except.ok ((fs.globStar (os_path_splitext p).1).filter
          fun f => fs.isFile f && !(py_endswith f ".lock"))
      else if fs.isDir p then
        Except.error (PyError.typeError
          "join() argument must be str, bytes, or os.PathLike object, not list")
      else Except.ok []
    else Except.ok []
  match f_list with
  | Except.error e => Except.error e
  | Except.ok l => Except.ok (md5 (((pySorted l).map fs.content).flatten))

/-- The `_data_finder` closure returned by `RecipeLayer.get_data_finder`.  Errors
carry the layer state at the moment of the raise, successes the updated layer and
the threaded recipe.  `found_files.pop()` takes the last element. -/
def _data_finder (md5 : List Nat → String) (fs : FS) (self : RecipeLayer)
    (all_gis_files : List (String × String)) (cmf : CrashMoveFolder) (recipe : MapRecipe) :
    Except (PyError × RecipeLayer) (RecipeLayer × MapRecipe) :=
  match _check_lyr_is_in_recipe self recipe with
  | Except.error e => Except.error (e, self)
  | Except.ok _ =>
    let found_files := foundFiles self all_gis_files
    match _check_found_files self found_files cmf with
    | Except.error e => Except.error (e, self)
    | Except.ok _ =>
      match found_files.getLast? with
      | none => Except.error (PyError.indexError "pop from empty list", self)
      | some pn =>
        let self1 := { self with data_source_path := some pn.1, data_name := some pn.2 }
        match _calc_data_source_checksum md5 fs self1.data_source_path with
        | Except.error e => Except.error (e, self1)
        | Except.ok ck => Except.ok ({ self1 with data_source_checksum := ck }, recipe)

/-- `RecipeLayer.checker_data_against_schema` up to its first data access.  A
successful result is the path the method goes on to read with
`geopandas.read_file`; the validation of the loaded frame is external library
behaviour and outside the embedding. -/
def checker_data_against_schema (self : RecipeLayer) (recipe : MapRecipe) :
    Except PyError String :=
  if !(pyTruthy self.data_source_path) then
    Except.error (PyError.valueError check_schema_guard_msg)
  else
    match _check_lyr_is_in_recipe self recipe with
    | Except.error e => Except.error e
    | Except.ok _ => Except.ok (pyStr self.data_source_path)

/-- `RecipeLayer.calc_extent` up to its first data access.  A successful result is
the path the method goes on to open with `fiona.open` in order to read the bounds
and the coordinate reference system. -/
def calc_extent (self : RecipeLayer) (recipe : MapRecipe) : Except PyError String :=
  if !(pyTruthy self.data_source_path) then
    Except.error (PyError.valueError calc_extent_guard_msg)
  else
    match _check_lyr_is_in_recipe self recipe with
    | Except.error e => Except.error e
    | Except.ok _ => Except.ok (pyStr self.data_source_path)

/-- Python `max(xs, key=itemgetter(1))`: the first element attaining the maximal
second component, `None` standing for the `ValueError` of an empty argument. -/
def pyMaxByRatio : List (String × ℚ) → Option (String × ℚ)
  | [] => none
  | x :: xs => some (xs.foldl (fun acc y => if acc.2 < y.2 then y else acc) x)

/-- Python `min(xs, key=itemgetter(1))`: the first element attaining the minimal
second component. -/
def pyMinByRatio : List (String × ℚ) → Option (String × ℚ)
  | [] => none
  | x :: xs => some (xs.foldl (fun acc y => if y.2 < acc.2 then y else acc) x)

/-- `BaseRunnerPlugin._get_template_by_aspect_ratio`.  Ratios are rational; the
source compares `2*math.log(target_ar) > math.log(larger_ar[1]) +
math.log(smaller_ar[1])`, which for positive ratios is equivalent to
`larger_ar[1] * smaller_ar[1] < target_ar ** 2` (logarithm laws; proved below as
`two_log_gt_iff`), and the embedding uses the latter form so that it stays
computable. -/
def _get_template_by_aspect_ratio (template_aspect_ratios : List (String × ℚ))
    (target_ar : ℚ) : Option String :=
  match pyMaxByRatio template_aspect_ratios with
  | none => none
  | some most_landscape =>
    if most_landscape.2 < target_ar then some most_landscape.1
    else
      match pyMinByRatio template_aspect_ratios with
      | none => none
      | some most_portrait =>
        if target_ar < most_portrait.2 then some most_portrait.1
        else
          match pyMinByRatio (template_aspect_ratios.filter fun c => target_ar ≤ c.2),
                pyMaxByRatio (template_aspect_ratios.filter fun c => c.2 ≤ target_ar) with
          | some larger_ar, some smaller_ar =>
            if larger_ar.2 * smaller_ar.2 < target_ar ^ 2 then some larger_ar.1
            else some smaller_ar.1
          | _, _ => none

/-- Drops an expected plain sequence of characters from the front of a list. -/
def dropLit : List Char → List Char → Option (List Char)
  | [], rest => some rest
  | _ :: _, [] => none
  | p :: ps, c :: cs => if p = c then dropLit ps cs else none

/-- Does a directory entry match the glob pattern
`mapNumber + "-v[0-9][0-9]-" + mapFileName + ".mxd"`, and if so which version do
the two digits encode?  For such entries the parse by literal string replacement
in the source yields exactly these two digits. -/
def globVersionMatch (mapNumber mapFileName : String) (fname : String) : Option Nat :=
  match dropLit (mapNumber.toList ++ ['-', 'v']) fname.toList with
  | none => none
  | some rest =>
    match rest with
    | d1 :: d2 :: rest2 =>
      if d1.isDigit && d2.isDigit &&
          rest2 = '-' :: (mapFileName.toList ++ ['.', 'm', 'x', 'd']) then
        some ((d1.toNat - 48) * 10 + (d2.toNat - 48))
      else none
    | _ => none

/-- `BaseRunnerPlugin.get_next_map_version_number`.  `dirListing` is the list of
entries (base names) of the output directory in the enumeration order the
operating system reports to `glob.glob`.  The source loop assigns
`versionNumber = int(...)` for *every* matching file in turn, so the value that
survives is the version of the last match enumerated, and the function returns
that value plus one (zero plus one when nothing matches). -/
def get_next_map_version_number (dirListing : List String)
    (mapNumber mapFileName : String) : Nat :=
  let files := dirListing.filterMap
    fun f => (globVersionMatch mapNumber mapFileName f).map fun v => (f, v)
  let versionNumber := files.foldl (fun _ fv => fv.2) 0
  versionNumber + 1

/-- `BaseRunnerPlugin._check_paths_for_zip_contents`: the list must be non-empty
and every entry must be a regular file; all offending entries are reported at
once. -/
def _check_paths_for_zip_contents (fs : FS) (recipe : MapRecipe) : Except PyError Unit :=
  if recipe.zip_file_contents = [] then Except.error PyError.emptyPackage
  else
    let erroneous_paths := recipe.zip_file_contents.filter fun fp => !(fs.isFile fp)
    if erroneous_paths ≠ [] then Except.error (PyError.missingArtifact erroneous_paths)
    else Except.ok ()

/-- The archive written by `zip_exported_files`: its path and, in writing order,
its entries as pairs of archive name (the base name of the source file) and byte
content. -/
structure ZipArchive where
  path : String
  entries : List (String × List Nat)
deriving DecidableEq

/-- `BaseRunnerPlugin.zip_exported_files`: after `_check_paths_for_zip_contents`
succeeds, write `<core_file_name>.zip` in the export directory, adding every
listed file under its base name in list order. -/
def zip_exported_files (fs : FS) (recipe : MapRecipe) : Except PyError ZipArchive :=
  match _check_paths_for_zip_contents fs recipe with
  | Except.error e => Except.error e
  | Except.ok _ =>
    let zip_fname := recipe.core_file_name ++ ".zip"
    let zip_fpath := os_path_join recipe.export_path zip_fname
    Except.ok
      { path := zip_fpath
        entries := recipe.zip_file_contents.map
          fun fpath => (os_path_basename fpath, fs.content fpath) }

/-- Exactly-one-match semantics of layer resolution: zero matches raise the
missing-data error, two or more raise the ambiguous-data error carrying the sorted
conflicting paths, and exactly one match binds `data_source_path` to the full path,
`data_name` to the filename without extension, and recomputes the checksum. -/
def DataFinderSpec (md5 : List Nat → String) (fs : FS) (lyr : RecipeLayer)
    (gis : List (String × String)) (cmf : CrashMoveFolder) (recipe : MapRecipe) : Prop :=
  (foundFiles lyr gis = [] →
    _data_finder md5 fs lyr gis cmf recipe =
      Except.error (PyError.missingData lyr.name cmf.path, lyr)) ∧
  (2 ≤ (foundFiles lyr gis).length →
    _data_finder md5 fs lyr gis cmf recipe =
      Except.error (PyError.ambiguousData lyr.name cmf.path
        (pySorted ((foundFiles lyr gis).map Prod.fst)), lyr)) ∧
  (∀ p n, foundFiles lyr gis = [(p, n)] →
    fs.isFile p = true ∨ fs.isDir p = false →
    ∃ ck, _calc_data_source_checksum md5 fs (some p) = Except.ok ck ∧
      _data_finder md5 fs lyr gis cmf recipe =
        Except.ok ({ lyr with
                      data_source_path := some p
                      data_name := some n
                      data_source_checksum := ck }, recipe))

/-- Behaviour of template selection for a non-empty candidate list: most-landscape
when the target exceeds every ratio, most-portrait when it is below every ratio,
otherwise the logarithmic midpoint test between the tightest enclosing candidates,
with ties resolved to the smaller. -/
def TemplateSelectionSpec (tars : List (String × ℚ)) (t : ℚ) : Prop :=
  ((∀ c ∈ tars, c.2 < t) →
    ∃ c ∈ tars, (∀ d ∈ tars, d.2 ≤ c.2) ∧
      _get_template_by_aspect_ratio tars t = some c.1) ∧
  ((∀ c ∈ tars, t < c.2) →
    ∃ c ∈ tars, (∀ d ∈ tars, c.2 ≤ d.2) ∧
      _get_template_by_aspect_ratio tars t = some c.1) ∧
  ((∃ c ∈ tars, t ≤ c.2) → (∃ c ∈ tars, c.2 ≤ t) →
    ∃ l ∈ tars, ∃ s ∈ tars,
      t ≤ l.2 ∧ s.2 ≤ t ∧
      (∀ d ∈ tars, t ≤ d.2 → l.2 ≤ d.2) ∧
      (∀ d ∈ tars, d.2 ≤ t → d.2 ≤ s.2) ∧
      (2 * Real.log (t : ℝ) > Real.log (l.2 : ℝ) + Real.log (s.2 : ℝ) →
        _get_template_by_aspect_ratio tars t = some l.1) ∧
      (¬(2 * Real.log (t : ℝ) > Real.log (l.2 : ℝ) + Real.log (s.2 : ℝ)) →
        _get_template_by_aspect_ratio tars t = some s.1))

/-- Packaging preconditions and result: empty contents raise the empty-package
error, missing artifacts raise an error naming every missing path, and otherwise
the archive `<core_file_name>.zip` is written in the export directory containing
exactly the base names of the listed files, in order. -/
def ZipSpec (fs : FS) (recipe : MapRecipe) : Prop :=
  (recipe.zip_file_contents = [] →
    zip_exported_files fs recipe = Except.error PyError.emptyPackage) ∧
  (recipe.zip_file_contents.filter (fun fp => !(fs.isFile fp)) ≠ [] →
    zip_exported_files fs recipe =
      Except.error (PyError.missingArtifact
        (recipe.zip_file_contents.filter fun fp => !(fs.isFile fp)))) ∧
  (recipe.zip_file_contents ≠ [] →
    (∀ fp ∈ recipe.zip_file_contents, fs.isFile fp = true) →
    zip_exported_files fs recipe = Except.ok
      { path := os_path_join recipe.export_path (recipe.core_file_name ++ ".zip")
        entries := recipe.zip_file_contents.map
          fun fp => (os_path_basename fp, fs.content fp) })

/-- Guards of the schema check and the extent calculation: a null (or empty)
`data_source_path` fails both before any data access, and a successful result,
which is the path subsequently read, requires a non-null `data_source_path`. -/
def ResolutionGuardSpec (lyr : RecipeLayer) (recipe : MapRecipe) : Prop :=
  (lyr.data_source_path = none →
    checker_data_against_schema lyr recipe =
        Except.error (PyError.valueError check_schema_guard_msg) ∧
      calc_extent lyr recipe = Except.error (PyError.valueError calc_extent_guard_msg)) ∧
  (∀ p, checker_data_against_schema lyr recipe = Except.ok p →
    lyr.data_source_path ≠ none) ∧
  (∀ p, calc_extent lyr recipe = Except.ok p → lyr.data_source_path ≠ none)

/-- Membership-check behaviour of the three mutating operations.  Resolution
checks membership first; the schema check and the extent calculation run their
resolution guard first, so a foreign layer fails with the foreign-layer error only
when its `data_source_path` is truthy and with the guard error otherwise; errors
leave the layer unchanged and a member layer passes the membership check. -/
def ForeignLayerSpec (md5 : List Nat → String) (fs : FS) (lyr : RecipeLayer)
    (gis : List (String × String)) (cmf : CrashMoveFolder) (recipe : MapRecipe) : Prop :=
  (lyr ∉ recipe.layers →
    _data_finder md5 fs lyr gis cmf recipe =
        Except.error (PyError.valueError (foreign_layer_msg lyr.name), lyr) ∧
      (pyTruthy lyr.data_source_path = true →
        checker_data_against_schema lyr recipe =
            Except.error (PyError.valueError (foreign_layer_msg lyr.name)) ∧
          calc_extent lyr recipe =
            Except.error (PyError.valueError (foreign_layer_msg lyr.name))) ∧
      (pyTruthy lyr.data_source_path = false →
        checker_data_against_schema lyr recipe =
            Except.error (PyError.valueError check_schema_guard_msg) ∧
          calc_extent lyr recipe =
            Except.error (PyError.valueError calc_extent_guard_msg))) ∧
  (lyr ∈ recipe.layers → _check_lyr_is_in_recipe lyr recipe = Except.ok ())

/-- Anchoring of layer matching: a candidate filename counts as a match exactly
when some prefix of its case-folded form lies in the language of the case-folded
pattern (`re.match` semantics), and a candidate without such a prefix contributes
nothing to `found_files`, no matter where else the pattern may occur inside it. -/
def AnchoredMatchSpec (lyr : RecipeLayer) : Prop :=
  (∀ s : String, pyReMatchCI lyr.reg_exp s = true ↔
    ∃ k, (caseFold s).take k ∈ (foldRE lyr.reg_exp).matches') ∧
  (∀ s : String, (∀ k, (caseFold s).take k ∉ (foldRE lyr.reg_exp).matches') →
    ∀ p : String, ∀ gis : List (String × String),
      foundFiles lyr (gis ++ [(p, s)]) = foundFiles lyr gis)

/-- The literal regular expression matching exactly one given string. -/
def litRE (s : String) : RegularExpression Char :=
  s.toList.foldr (fun c r => RegularExpression.comp (RegularExpression.char c) r)
    RegularExpression.epsilon

/-- A concrete crash-move-folder description used for evaluation. -/
def cmfC : CrashMoveFolder :=
  { path := "/cmf"
    original_data := "/cmf/original_data"
    active_data := "/cmf/active_data"
    layer_rendering := "/cmf/layer_rendering"
    mxd_templates := "/cmf/mxd_templates"
    mxd_products := "/cmf/mxd_products"
    qgis_templates := "/cmf/qgis_templates"
    export_dir := "/cmf/export"
    dnc_definition := "/cmf/dnc.json"
    layer_nc_definition := "/cmf/layer_nc.json"
    mxd_nc_definition := "/cmf/mxd_nc.json"
    map_definitions := "/cmf/map_defs.json"
    layer_properties := "/cmf/layer_props.json"
    arcgis_version := "10.6"
    categories := ["reference"] }

/-- The directories `cmfC` declares. -/
def cmfDirs : List String :=
  ["/cmf/original_data", "/cmf/active_data", "/cmf/layer_rendering", "/cmf/mxd_templates",
   "/cmf/mxd_products", "/cmf/qgis_templates", "/cmf/export"]

/-- The files `cmfC` declares. -/
def cmfFiles : List String :=
  ["/cmf/dnc.json", "/cmf/layer_nc.json", "/cmf/mxd_nc.json", "/cmf/map_defs.json",
   "/cmf/layer_props.json"]

/-- A file system where every declared directory and file of `cmfC` exists but the
templates directory holds no files at all. -/
def fsAllPresent : FS :=
  { isFile := fun p => p ∈ cmfFiles
    isDir := fun p => p ∈ cmfDirs
    pathExists := fun p => p ∈ cmfDirs || p ∈ cmfFiles
    globStar := fun _ => []
    content := fun _ => [] }

/-- `fsAllPresent` with the `original_data` directory removed. -/
def fsMissingDir : FS :=
  { isFile := fun p => p ∈ cmfFiles
    isDir := fun p => p ∈ cmfDirs.tail
    pathExists := fun p => p ∈ cmfDirs.tail || p ∈ cmfFiles
    globStar := fun _ => []
    content := fun _ => [] }

/-- A file system whose only entry is the directory `/data/dirsrc`. -/
def fsDirOnly : FS :=
  { isFile := fun _ => false
    isDir := fun p => p = "/data/dirsrc"
    pathExists := fun p => p = "/data/dirsrc"
    globStar := fun _ => []
    content := fun _ => [] }

/-- A file system holding the multi-part shapefile `/gis/Admin_A.shp` (with its
`.shx`, `.dbf` siblings and a stray lock file) and the artifacts used by the
packaging witnesses. -/
def fsGis : FS :=
  { isFile := fun p =>
      p ∈ ["/gis/Admin_A.shp", "/gis/Admin_A.shx", "/gis/Admin_A.dbf",
           "/gis/Admin_A.shp.lock", "/art/a.pdf", "/art/sub/b.xml"]
    isDir := fun _ => false
    pathExists := fun p =>
      p ∈ ["/gis/Admin_A.shp", "/gis/Admin_A.shx", "/gis/Admin_A.dbf",
           "/gis/Admin_A.shp.lock", "/art/a.pdf", "/art/sub/b.xml"]
    globStar := fun base =>
      if base = "/gis/Admin_A" then
        ["/gis/Admin_A.shx", "/gis/Admin_A.shp", "/gis/Admin_A.shp.lock", "/gis/Admin_A.dbf"]
      else []
    content := fun p =>
      if p = "/gis/Admin_A.shp" then [10, 11]
      else if p = "/gis/Admin_A.shx" then [20]
      else if p = "/gis/Admin_A.dbf" then [30]
      else if p = "/art/a.pdf" then [1, 2]
      else if p = "/art/sub/b.xml" then [3]
      else [] }

/-- A stand-in digest function for witnesses: fully computable and injective
enough for evaluation. -/
def md5W : List Nat → String :=
  fun bs => toString bs

/-- A concrete layer definition used by the witnesses. -/
def mkLayer (nm : String) (r : RegularExpression Char) (dsp : Option String) : RecipeLayer :=
  { name := nm
    reg_exp := r
    definition_query := ""
    schema_definition := "admin.yml"
    layer_file_path := "/cmf/layer_rendering/" ++ nm ++ ".lyr"
    layer_file_checksum := ""
    data_source_path := dsp
    data_name := none
    data_source_checksum := ""
    extent := none
    crs := none }

/-- An unresolved layer whose pattern matches filenames starting with `admin`. -/
def lyrAdmin : RecipeLayer := mkLayer "mainmap-admin" (litRE "admin") none

/-- A resolved layer (its `data_source_path` is set). -/
def lyrResolved : RecipeLayer := mkLayer "mainmap-roads" (litRE "roads") (some "/gis/roads.shp")

/-- A layer whose pattern occurs only in the interior of `heatmap.shp`. -/
def lyrInterior : RecipeLayer := mkLayer "mainmap-heat" (litRE "map") none

/-- A recipe holding the given layers, with concrete packaging state. -/
def recipeWith (ls : List RecipeLayer) (contents : List String) : MapRecipe :=
  { layers := ls
    export_path := "/cmf/export/MA01/v01"
    core_file_name := "MA01-v01-example-map"
    zip_file_contents := contents }

/-- The available-files list used by the resolution witnesses. -/
def gisOne : List (String × String) := [("/gis/Admin_A.shp", "Admin_A.shp")]

/-! ## Supporting lemmas -/

theorem checksum_ok (md5 : List Nat → String) (fs : FS) (p : String)
    (h : fs.isFile p = true ∨ fs.isDir p = false) :
    ∃ ck, _calc_data_source_checksum md5 fs (some p) = Except.ok ck := by
  unfold _calc_data_source_checksum
  by_cases ht : pyTruthy (some p) = true
  · by_cases hf : fs.isFile p = true
    · exact ⟨_, by simp [ht, pyStr, hf]; rfl⟩
    · have hd : fs.isDir p = false := by
        rcases h with h | h
        · exact absurd h hf
        · exact h
      exact ⟨_, by simp [ht, pyStr, hf, hd]; rfl⟩
  · rw [Bool.not_eq_true] at ht
    exact ⟨_, by simp [ht]; rfl⟩

theorem foldlMax_mem (l : List (String × ℚ)) (a : String × ℚ) :
    l.foldl (fun acc y => if acc.2 < y.2 then y else acc) a = a ∨
      l.foldl (fun acc y => if acc.2 < y.2 then y else acc) a ∈ l := by
  induction l generalizing a with
  | nil => exact Or.inl rfl
  | cons y ys ih =>
    simp only [List.foldl_cons]
    rcases ih (if a.2 < y.2 then y else a) with h | h
    · rw [h]
      by_cases hc : a.2 < y.2
      · simp only [if_pos hc]
        exact Or.inr (List.mem_cons_self y ys)
      · simp only [if_neg hc]
        exact Or.inl (by simp)
    · exact Or.inr (List.mem_cons_of_mem _ h)

theorem foldlMax_ge (l : List (String × ℚ)) (a : String × ℚ) :
    ∀ y ∈ a :: l, y.2 ≤ (l.foldl (fun acc y => if acc.2 < y.2 then y else acc) a).2 := by
  induction l generalizing a with
  | nil =>
    intro y hy
    rw [List.mem_singleton.mp hy]
    exact le_rfl
  | cons z zs ih =>
    intro y hy
    simp only [List.foldl_cons]
    have hstep : a.2 ≤ (if a.2 < z.2 then z else a).2 ∧ z.2 ≤ (if a.2 < z.2 then z else a).2 := by
      by_cases hc : a.2 < z.2
      · simp only [if_pos hc]
        exact ⟨le_of_lt hc, le_refl _⟩
      · simp only [if_neg hc]
        exact ⟨le_refl _, le_of_not_lt hc⟩
    have hhead := ih (if a.2 < z.2 then z else a) _ (List.mem_cons_self _ _)
    rcases List.mem_cons.mp hy with h | h
    · rw [h]
      exact hstep.1.trans hhead
    · rcases List.mem_cons.mp h with h | h
      · rw [h]
        exact hstep.2.trans hhead
      · exact ih _ y (List.mem_cons_of_mem _ h)

theorem foldlMin_mem (l : List (String × ℚ)) (a : String × ℚ) :
    l.foldl (fun acc y => if y.2 < acc.2 then y else acc) a = a ∨
      l.foldl (fun acc y => if y.2 < acc.2 then y else acc) a ∈ l := by
  induction l generalizing a with
  | nil => exact Or.inl rfl
  | cons y ys ih =>
    simp only [List.foldl_cons]
    rcases ih (if y.2 < a.2 then y else a) with h | h
    · rw [h]
      by_cases hc : y.2 < a.2
      · simp only [if_pos hc]
        exact Or.inr (List.mem_cons_self y ys)
      · simp only [if_neg hc]
        exact Or.inl (by simp)
    · exact Or.inr (List.mem_cons_of_mem _ h)

theorem foldlMin_le (l : List (String × ℚ)) (a : String × ℚ) :
    ∀ y ∈ a :: l, (l.foldl (fun acc y => if y.2 < acc.2 then y else acc) a).2 ≤ y.2 := by
  induction l generalizing a with
  | nil =>
    intro y hy
    rw [List.mem_singleton.mp hy]
    exact le_rfl
  | cons z zs ih =>
    intro y hy
    simp only [List.foldl_cons]
    have hstep : (if z.2 < a.2 then z else a).2 ≤ a.2 ∧ (if z.2 < a.2 then z else a).2 ≤ z.2 := by
      by_cases hc : z.2 < a.2
      · simp only [if_pos hc]
        exact ⟨le_of_lt hc, le_refl _⟩
      · simp only [if_neg hc]
        exact ⟨le_refl _, le_of_not_lt hc⟩
    have hhead := ih (if z.2 < a.2 then z else a) _ (List.mem_cons_self _ _)
    rcases List.mem_cons.mp hy with h | h
    · rw [h]
      exact hhead.trans hstep.1
    · rcases List.mem_cons.mp h with h | h
      · rw [h]
        exact hhead.trans hstep.2
      · exact ih _ y (List.mem_cons_of_mem _ h)

theorem pyMaxByRatio_spec (l : List (String × ℚ)) (h : l ≠ []) :
    ∃ m, pyMaxByRatio l = some m ∧ m ∈ l ∧ ∀ y ∈ l, y.2 ≤ m.2 := by
  cases l with
  | nil => exact absurd rfl h
  | cons x xs =>
    refine ⟨_, rfl, ?_, ?_⟩
    · rcases foldlMax_mem xs x with h | h
      · rw [h]
        exact List.mem_cons_self _ _
      · exact List.mem_cons_of_mem _ h
    · intro y hy
      exact foldlMax_ge xs x y hy

theorem pyMinByRatio_spec (l : List (String × ℚ)) (h : l ≠ []) :
    ∃ m, pyMinByRatio l = some m ∧ m ∈ l ∧ ∀ y ∈ l, m.2 ≤ y.2 := by
  cases l with
  | nil => exact absurd rfl h
  | cons x xs =>
    refine ⟨_, rfl, ?_, ?_⟩
    · rcases foldlMin_mem xs x with h | h
      · rw [h]
        exact List.mem_cons_self _ _
      · exact List.mem_cons_of_mem _ h
    · intro y hy
      exact foldlMin_le xs x y hy

/-- The logarithmic midpoint test of the source is, for positive rationals, the
multiplicative comparison used by the embedding. -/
theorem two_log_gt_iff (a b c : ℚ) (ha : 0 < a) (hb : 0 < b) (hc : 0 < c) :
    (2 * Real.log (a : ℝ) > Real.log (b : ℝ) + Real.log (c : ℝ)) ↔ b * c < a ^ 2 := by
  have ha' : (0 : ℝ) < (a : ℝ) := by exact_mod_cast ha
  have hb' : (0 : ℝ) < (b : ℝ) := by exact_mod_cast hb
  have hc' : (0 : ℝ) < (c : ℝ) := by exact_mod_cast hc
  have h2 : 2 * Real.log (a : ℝ) = Real.log ((a : ℝ) ^ 2) := by
    rw [Real.log_pow]
    norm_num
  have hsum : Real.log (b : ℝ) + Real.log (c : ℝ) = Real.log ((b : ℝ) * (c : ℝ)) := by
    rw [Real.log_mul (ne_of_gt hb') (ne_of_gt hc')]
  rw [h2, hsum, gt_iff_lt, Real.log_lt_log_iff (by positivity) (by positivity)]
  constructor
  · intro h
    exact_mod_cast h
  · intro h
    exact_mod_cast h

/-! ## Claim theorems -/

/-- C1: `get_next_map_version_number` does not return max+1 over all matching
filenames.  With matching files versioned 5 and 1 it returns the version of the
last file the directory listing enumerates plus one: 2 when version 1 is listed
last and 6 when version 5 is listed last, so the result is order-dependent and
differs from the claimed max+1 = 6; an empty directory does return 1. -/
theorem next_version_uses_last_enumerated_match :
    get_next_map_version_number
        ["MA001-v05-example-map.mxd", "MA001-v01-example-map.mxd"]
        "MA001" "example-map" = 2 ∧
    get_next_map_version_number
        ["MA001-v01-example-map.mxd", "MA001-v05-example-map.mxd"]
        "MA001" "example-map" = 6 ∧
    get_next_map_version_number [] "MA001" "example-map" = 1 := by
  exact ⟨by decide, by decide, by decide⟩

/-- C2: `verify_paths` does not check the per-category template filenames.  On a
file system where every required directory and file of `cmfC` exists but the
templates directory contains no files at all — in particular neither
`10.6_reference_landscape_bottom.mxd` nor `10.6_reference_portrait_bottom.mxd`
exists — `verify_paths` still returns true, contradicting the claimed false;
removing the required `original_data` directory does make it return false. -/
theorem verify_paths_ignores_template_filenames :
    verify_paths fsAllPresent cmfC = true ∧
    fsAllPresent.pathExists "/cmf/mxd_templates/10.6_reference_landscape_bottom.mxd" = false ∧
    fsAllPresent.pathExists "/cmf/mxd_templates/10.6_reference_portrait_bottom.mxd" = false ∧
    verify_paths fsMissingDir cmfC = false := by
  exact ⟨by decide, by decide, by decide, by decide⟩

/-- C5: the directory branch of `_calc_data_source_checksum` raises `TypeError`
instead of hashing the directory contents, because the source joins each `os.walk`
directory path with the whole filename list; the other branches behave as claimed:
an absent path yields the digest of the empty byte sequence and a single-file path
hashes the non-lock sibling files in sorted order (`.dbf`, `.shp`, `.shx` here,
with contents `[30]`, `[10, 11]`, `[20]`). -/
theorem checksum_directory_branch_raises :
    _calc_data_source_checksum md5W fsDirOnly (some "/data/dirsrc") =
      Except.error (PyError.typeError
        "join() argument must be str, bytes, or os.PathLike object, not list") ∧
    _calc_data_source_checksum md5W fsDirOnly none = Except.ok (md5W []) ∧
    _calc_data_source_checksum md5W fsGis (some "/gis/Admin_A.shp") =
      Except.ok (md5W [30, 10, 11, 20]) := by
  exact ⟨rfl, rfl, rfl⟩

/-- C6: `zip_exported_files` fails with the empty-package error exactly when
`zip_file_contents` is empty, fails with the missing-artifact error naming every
listed path that is not a regular file, and otherwise produces the archive
`<core_file_name>.zip` in the export directory whose entries are the base names of
all listed files in list order. -/
theorem zip_packaging_preconditions (fs : FS) (recipe : MapRecipe) :
    ZipSpec fs recipe := by
  refine ⟨?_, ?_, ?_⟩
  · intro h
    simp [zip_exported_files, _check_paths_for_zip_contents, h]
  · intro h
    have hne : recipe.zip_file_contents ≠ [] := by
      intro hc
      rw [hc] at h
      simp at h
    simp [zip_exported_files, _check_paths_for_zip_contents, hne, h]
  · intro hne hall
    have hfil : recipe.zip_file_contents.filter (fun fp => !(fs.isFile fp)) = [] := by
      rw [List.filter_eq_nil_iff]
      intro a ha
      simp [hall a ha]
    simp [zip_exported_files, _check_paths_for_zip_contents, hne, hfil]

/-- C6 witness: concrete packaging runs covering the three branches. -/
theorem zip_packaging_preconditions_witness :
    zip_exported_files fsGis (recipeWith [] []) = Except.error PyError.emptyPackage ∧
    zip_exported_files fsGis (recipeWith [] ["/art/a.pdf", "/art/missing.pdf", "/art/gone.pdf"]) =
      Except.error (PyError.missingArtifact ["/art/missing.pdf", "/art/gone.pdf"]) ∧
    zip_exported_files fsGis (recipeWith [] ["/art/a.pdf", "/art/sub/b.xml"]) =
      Except.ok { path := "/cmf/export/MA01/v01/MA01-v01-example-map.zip"
                  entries := [("a.pdf", [1, 2]), ("b.xml", [3])] } := by
  refine ⟨(zip_packaging_preconditions fsGis (recipeWith [] [])).1 rfl, ?_, ?_⟩
  · exact ((zip_packaging_preconditions fsGis
      (recipeWith [] ["/art/a.pdf", "/art/missing.pdf", "/art/gone.pdf"])).2.1
        (by decide)).trans (by rfl)
  · exact ((zip_packaging_preconditions fsGis
      (recipeWith [] ["/art/a.pdf", "/art/sub/b.xml"])).2.2
        (by decide) (by decide)).trans (by rfl)

/-- C7: with a null `data_source_path` both the schema check and the extent
calculation fail with their guard error before any data access, and either
operation only proceeds (returning the path it will read) when `data_source_path`
is non-null. -/
theorem unresolved_layer_guards (lyr : RecipeLayer) (recipe : MapRecipe) :
    ResolutionGuardSpec lyr recipe := by
  refine ⟨?_, ?_, ?_⟩
  · intro h
    constructor
    · simp [checker_data_against_schema, h, pyTruthy]
    · simp [calc_extent, h, pyTruthy]
  · intro p hp hnone
    rw [checker_data_against_schema, hnone] at hp
    simp [pyTruthy] at hp
  · intro p hp hnone
    rw [calc_extent, hnone] at hp
    simp [pyTruthy] at hp

/-- C7 witness: the guards on a concrete unresolved layer. -/
theorem unresolved_layer_guards_witness :
    lyrAdmin.data_source_path = none ∧
    checker_data_against_schema lyrAdmin (recipeWith [lyrAdmin] []) =
      Except.error (PyError.valueError check_schema_guard_msg) ∧
    calc_extent lyrAdmin (recipeWith [lyrAdmin] []) =
      Except.error (PyError.valueError calc_extent_guard_msg) := by
  refine ⟨rfl, ?_, ?_⟩
  · exact ((unresolved_layer_guards lyrAdmin (recipeWith [lyrAdmin] [])).1 rfl).1
  · exact ((unresolved_layer_guards lyrAdmin (recipeWith [lyrAdmin] [])).1 rfl).2

/-- C9: when matching yields zero files or more than one file, `_data_finder`
raises before any field assignment, so the error carries the layer exactly as it
was passed in — `data_source_path`, `data_name` and `data_source_checksum`
unchanged. -/
theorem resolution_failure_atomic (md5 : List Nat → String) (fs : FS)
    (lyr : RecipeLayer) (gis : List (String × String)) (cmf : CrashMoveFolder)
    (recipe : MapRecipe)
    (h : foundFiles lyr gis = [] ∨ 2 ≤ (foundFiles lyr gis).length) :
    ∃ e, _data_finder md5 fs lyr gis cmf recipe = Except.error (e, lyr) := by
  by_cases hmem : lyr ∈ recipe.layers
  · have hchk : _check_lyr_is_in_recipe lyr recipe = Except.ok () := by
      simp [_check_lyr_is_in_recipe, hmem]
    rcases h with h | h
    · exact ⟨PyError.missingData lyr.name cmf.path,
        by simp [_data_finder, hchk, _check_found_files, h]⟩
    · have hne : foundFiles lyr gis ≠ [] := by
        intro hc
        rw [hc] at h
        simp at h
      have hgt : 1 < (foundFiles lyr gis).length := by omega
      exact ⟨PyError.ambiguousData lyr.name cmf.path
          (pySorted ((foundFiles lyr gis).map Prod.fst)),
        by simp [_data_finder, hchk, _check_found_files, hne, hgt]⟩
  · have hchk : _check_lyr_is_in_recipe lyr recipe =
        Except.error (PyError.valueError (foreign_layer_msg lyr.name)) := by
      simp [_check_lyr_is_in_recipe, hmem]
    exact ⟨PyError.valueError (foreign_layer_msg lyr.name),
      by simp [_data_finder, hchk]⟩

/-- C9 witness: a concrete zero-match resolution leaves the layer untouched in the
error it raises. -/
theorem resolution_failure_atomic_witness :
    foundFiles lyrInterior gisOne = [] ∧
    ∃ e, _data_finder md5W fsGis lyrInterior gisOne cmfC
        (recipeWith [lyrInterior] []) = Except.error (e, lyrInterior) := by
  refine ⟨by decide, ?_⟩
  exact resolution_failure_atomic md5W fsGis lyrInterior gisOne cmfC
    (recipeWith [lyrInterior] []) (Or.inl (by decide))

/-- C10: a candidate filename counts as a match exactly when some prefix of its
case-folded form is in the language of the case-folded pattern (`re.match`
anchors at position zero), and a candidate with no such prefix contributes
nothing to `found_files` even if the pattern occurs in its interior. -/
theorem regex_match_anchored (lyr : RecipeLayer) : AnchoredMatchSpec lyr := by
  have part1 : ∀ s : String, pyReMatchCI lyr.reg_exp s = true ↔
      ∃ k, (caseFold s).take k ∈ (foldRE lyr.reg_exp).matches' := by
    intro s
    constructor
    · intro h
      obtain ⟨k, hk_mem, hk⟩ := List.any_eq_true.mp h
      exact ⟨k, (RegularExpression.rmatch_iff_matches' _ _).mp hk⟩
    · rintro ⟨k, hk⟩
      apply List.any_eq_true.mpr
      rcases le_or_lt k (caseFold s).length with hle | hlt
      · exact ⟨k, List.mem_range.mpr (by omega),
          (RegularExpression.rmatch_iff_matches' _ _).mpr hk⟩
      · refine ⟨(caseFold s).length, List.mem_range.mpr (by omega), ?_⟩
        rw [List.take_of_length_le (le_of_lt hlt)] at hk
        rw [List.take_length]
        exact (RegularExpression.rmatch_iff_matches' _ _).mpr hk
  refine ⟨part1, ?_⟩
  intro s hno p gis
  have hfalse : pyReMatchCI lyr.reg_exp s = false := by
    rw [← Bool.not_eq_true]
    intro htrue
    obtain ⟨k, hk⟩ := (part1 s).mp htrue
    exact hno k hk
  unfold foundFiles
  rw [List.filter_append, List.map_append]
  have hnil : List.filter (fun pr => pyReMatchCI lyr.reg_exp pr.2) [(p, s)] = [] := by
    simp [hfalse]
  rw [hnil]
  simp

/-- C10 witness: the pattern `map` occurs inside `heatmap.shp` but not at the
start, so the candidate is not matched and contributes nothing. -/
theorem regex_match_anchored_witness :
    pyReMatchCI lyrInterior.reg_exp "heatmap.shp" = false ∧
    foundFiles lyrInterior
        ([("/gis/a.shp", "a.shp")] ++ [("/gis/heatmap.shp", "heatmap.shp")]) =
      foundFiles lyrInterior [("/gis/a.shp", "a.shp")] := by
  have hspec := regex_match_anchored lyrInterior
  have hfalse : pyReMatchCI lyrInterior.reg_exp "heatmap.shp" = false := by decide
  refine ⟨hfalse, hspec.2 "heatmap.shp" (fun k hk => ?_) "/gis/heatmap.shp"
    [("/gis/a.shp", "a.shp")]⟩
  have htrue := (hspec.1 "heatmap.shp").mpr ⟨k, hk⟩
  rw [hfalse] at htrue
  exact Bool.noConfusion htrue

/-- C3: resolution has exactly-one-match semantics — zero matches raise the
missing-data error, two or more raise the ambiguous-data error carrying the
sorted list of all conflicting paths, and exactly one match binds
`data_source_path` to the full path and `data_name` to the filename without
extension and recomputes `data_source_checksum`. -/
theorem data_finder_exactly_one_match (md5 : List Nat → String) (fs : FS)
    (lyr : RecipeLayer) (gis : List (String × String)) (cmf : CrashMoveFolder)
    (recipe : MapRecipe) (hmem : lyr ∈ recipe.layers) :
    DataFinderSpec md5 fs lyr gis cmf recipe := by
  have hchk : _check_lyr_is_in_recipe lyr recipe = Except.ok () := by
    simp [_check_lyr_is_in_recipe, hmem]
  refine ⟨?_, ?_, ?_⟩
  · intro h
    simp [_data_finder, hchk, _check_found_files, h]
  · intro h
    have hne : foundFiles lyr gis ≠ [] := by
      intro hc
      rw [hc] at h
      simp at h
    have hgt : 1 < (foundFiles lyr gis).length := by omega
    simp [_data_finder, hchk, _check_found_files, hne, hgt]
  · intro p n hf hdisk
    obtain ⟨ck, hck⟩ := checksum_ok md5 fs p hdisk
    refine ⟨ck, hck, ?_⟩
    simp [_data_finder, hchk, _check_found_files, hf, hck]

/-- C3 witness: a single case-insensitive match binds the concrete layer to
`/gis/Admin_A.shp`. -/
theorem data_finder_exactly_one_match_witness :
    lyrAdmin ∈ (recipeWith [lyrAdmin] []).layers ∧
    DataFinderSpec md5W fsGis lyrAdmin gisOne cmfC (recipeWith [lyrAdmin] []) :=
  ⟨by decide, data_finder_exactly_one_match md5W fsGis lyrAdmin gisOne cmfC
    (recipeWith [lyrAdmin] []) (by decide)⟩

/-- C8 counterexample: the schema check on a layer that is not a member of the
recipe does not fail with the foreign-layer error when the layer is unresolved —
the resolution guard runs first, so it fails with the not-resolved message
instead.  `lyrAdmin` (whose `data_source_path` is null) is not in the recipe
holding only `lyrResolved`, yet the operation raises the guard error, not the
foreign-layer error. -/
theorem foreign_layer_not_checked_first_counterexample :
    lyrAdmin ∉ (recipeWith [lyrResolved] []).layers ∧
    checker_data_against_schema lyrAdmin (recipeWith [lyrResolved] []) =
      Except.error (PyError.valueError check_schema_guard_msg) ∧
    checker_data_against_schema lyrAdmin (recipeWith [lyrResolved] []) ≠
      Except.error (PyError.valueError (foreign_layer_msg lyrAdmin.name)) := by
  exact ⟨by decide, by decide, by decide⟩

/-- C8 amended: resolution checks membership first and fails with the
foreign-layer error, leaving the layer unchanged, whenever the layer is not in the
recipe's layer set; the schema check and the extent calculation run their
resolution guard first, so a non-member layer fails with the foreign-layer error
when `data_source_path` is truthy and with the not-resolved guard error when it is
not; in every case no mutation occurs, and a member layer passes the membership
check. -/
theorem foreign_layer_check_amended (md5 : List Nat → String) (fs : FS)
    (lyr : RecipeLayer) (gis : List (String × String)) (cmf : CrashMoveFolder)
    (recipe : MapRecipe) : ForeignLayerSpec md5 fs lyr gis cmf recipe := by
  refine ⟨?_, ?_⟩
  · intro hnot
    have hchk : _check_lyr_is_in_recipe lyr recipe =
        Except.error (PyError.valueError (foreign_layer_msg lyr.name)) := by
      simp [_check_lyr_is_in_recipe, hnot]
    refine ⟨by simp [_data_finder, hchk], ?_, ?_⟩
    · intro ht
      constructor
      · simp [checker_data_against_schema, ht, hchk]
      · simp [calc_extent, ht, hchk]
    · intro hf
      constructor
      · simp [checker_data_against_schema, hf]
      · simp [calc_extent, hf]
  · intro hmem
    simp [_check_lyr_is_in_recipe, hmem]

/-- C8 witness: a resolved foreign layer fails all three operations with the
foreign-layer error, and a member layer passes the membership check. -/
theorem foreign_layer_check_amended_witness :
    lyrResolved ∉ (recipeWith [lyrAdmin] []).layers ∧
    _data_finder md5W fsGis lyrResolved gisOne cmfC (recipeWith [lyrAdmin] []) =
      Except.error (PyError.valueError (foreign_layer_msg lyrResolved.name), lyrResolved) ∧
    checker_data_against_schema lyrResolved (recipeWith [lyrAdmin] []) =
      Except.error (PyError.valueError (foreign_layer_msg lyrResolved.name)) ∧
    calc_extent lyrResolved (recipeWith [lyrAdmin] []) =
      Except.error (PyError.valueError (foreign_layer_msg lyrResolved.name)) ∧
    _check_lyr_is_in_recipe lyrAdmin (recipeWith [lyrAdmin] []) = Except.ok () := by
  have hn : lyrResolved ∉ (recipeWith [lyrAdmin] []).layers := by decide
  have h := (foreign_layer_check_amended md5W fsGis lyrResolved gisOne cmfC
    (recipeWith [lyrAdmin] [])).1 hn
  refine ⟨hn, h.1, (h.2.1 (by decide)).1, (h.2.1 (by decide)).2, ?_⟩
  exact (foreign_layer_check_amended md5W fsGis lyrAdmin gisOne cmfC
    (recipeWith [lyrAdmin] [])).2 (by decide)

/-- C4: template selection for a non-empty candidate list with positive ratios and
positive target returns the most-landscape candidate when the target exceeds every
ratio, the most-portrait candidate when it is below every ratio, and otherwise
compares the tightest enclosing candidates by the logarithmic midpoint test,
choosing `larger` exactly when `2·ln(target) > ln(larger) + ln(smaller)` and
`smaller` otherwise, so equality resolves to `smaller`. -/
theorem template_selection_by_aspect_ratio (tars : List (String × ℚ)) (t : ℚ)
    (hne : tars ≠ []) (hpos : ∀ c ∈ tars, 0 < c.2) (ht : 0 < t) :
    TemplateSelectionSpec tars t := by
  obtain ⟨m, hm_eq, hm_mem, hm_max⟩ := pyMaxByRatio_spec tars hne
  obtain ⟨mp, hmp_eq, hmp_mem, hmp_min⟩ := pyMinByRatio_spec tars hne
  refine ⟨?_, ?_, ?_⟩
  · intro hall
    refine ⟨m, hm_mem, hm_max, ?_⟩
    simp [_get_template_by_aspect_ratio, hm_eq, hall m hm_mem]
  · intro hall
    have h1 : ¬ m.2 < t := not_lt.mpr (le_of_lt (hall m hm_mem))
    refine ⟨mp, hmp_mem, hmp_min, ?_⟩
    simp [_get_template_by_aspect_ratio, hm_eq, h1, hmp_eq, hall mp hmp_mem]
  · intro hA hB
    obtain ⟨cA, hcA_mem, hcA⟩ := hA
    obtain ⟨cB, hcB_mem, hcB⟩ := hB
    have h1 : ¬ m.2 < t := not_lt.mpr (hcA.trans (hm_max cA hcA_mem))
    have h2 : ¬ t < mp.2 := not_lt.mpr ((hmp_min cB hcB_mem).trans hcB)
    have hfilA : tars.filter (fun c => decide (t ≤ c.2)) ≠ [] := by
      have hmemf : cA ∈ tars.filter (fun c => decide (t ≤ c.2)) :=
        List.mem_filter.mpr ⟨hcA_mem, by simpa using hcA⟩
      exact List.ne_nil_of_mem hmemf
    have hfilB : tars.filter (fun c => decide (c.2 ≤ t)) ≠ [] := by
      have hmemf : cB ∈ tars.filter (fun c => decide (c.2 ≤ t)) :=
        List.mem_filter.mpr ⟨hcB_mem, by simpa using hcB⟩
      exact List.ne_nil_of_mem hmemf
    obtain ⟨l, hl_eq, hl_mem, hl_min⟩ := pyMinByRatio_spec _ hfilA
    obtain ⟨sm, hs_eq, hs_mem, hs_max⟩ := pyMaxByRatio_spec _ hfilB
    have hl_tars : l ∈ tars := (List.mem_filter.mp hl_mem).1
    have hs_tars : sm ∈ tars := (List.mem_filter.mp hs_mem).1
    have hl_ge : t ≤ l.2 := by
      have hh := (List.mem_filter.mp hl_mem).2
      simpa using hh
    have hs_le : sm.2 ≤ t := by
      have hh := (List.mem_filter.mp hs_mem).2
      simpa using hh
    refine ⟨l, hl_tars, sm, hs_tars, hl_ge, hs_le, ?_, ?_, ?_, ?_⟩
    · intro d hd hdt
      exact hl_min d (List.mem_filter.mpr ⟨hd, by simpa using hdt⟩)
    · intro d hd hdt
      exact hs_max d (List.mem_filter.mpr ⟨hd, by simpa using hdt⟩)
    · intro hlog
      have hq : l.2 * sm.2 < t ^ 2 :=
        (two_log_gt_iff t l.2 sm.2 ht (hpos l hl_tars) (hpos sm hs_tars)).mp hlog
      simp [_get_template_by_aspect_ratio, hm_eq, h1, hmp_eq, h2, hl_eq, hs_eq, hq]
    · intro hlog
      have hq : ¬ l.2 * sm.2 < t ^ 2 := by
        intro hc
        exact hlog ((two_log_gt_iff t l.2 sm.2 ht (hpos l hl_tars) (hpos sm hs_tars)).mpr hc)
      simp [_get_template_by_aspect_ratio, hm_eq, h1, hmp_eq, h2, hl_eq, hs_eq, hq]

/-- C4 witness: candidates with ratios one and four and target ratio two — the
geometric midpoint is exactly the target (2·ln 2 = ln 1 + ln 4), and the selection
resolves the tie to the smaller candidate. -/
theorem template_selection_by_aspect_ratio_witness :
    ([("one", (1 : ℚ)), ("four", 4)] ≠ ([] : List (String × ℚ))) ∧
    (∀ c ∈ [("one", (1 : ℚ)), ("four", 4)], 0 < c.2) ∧
    (0 : ℚ) < 2 ∧
    TemplateSelectionSpec [("one", (1 : ℚ)), ("four", 4)] 2 ∧
    _get_template_by_aspect_ratio [("one", (1 : ℚ)), ("four", 4)] 2 = some "one" :=
  ⟨List.cons_ne_nil _ _, by decide, by decide,
   template_selection_by_aspect_ratio [("one", (1 : ℚ)), ("four", 4)] 2
     (List.cons_ne_nil _ _) (by decide) (by decide),
   by norm_num [_get_template_by_aspect_ratio, pyMaxByRatio, pyMinByRatio,
     List.foldl_cons, List.foldl_nil, List.filter]⟩

/-! ## `pySorted` is a sort: supporting facts for the ambiguous-data error list -/

theorem lexLe_cons_iff (x y : Char) (xs ys : List Char) :
    lexLe (x :: xs) (y :: ys) = true ↔ (x < y ∨ (x = y ∧ lexLe xs ys = true)) := by
  by_cases hlt : x < y
  · simp [lexLe, hlt]
  · by_cases heq : x = y
    · simp [lexLe, hlt, heq]
    · simp [lexLe, hlt, heq]

theorem lexLe_total : ∀ as bs : List Char, lexLe as bs = true ∨ lexLe bs as = true
  | [], _ => Or.inl rfl
  | _ :: _, [] => Or.inr rfl
  | a :: as, b :: bs => by
    rcases lt_trichotomy a b with h | h | h
    · exact Or.inl ((lexLe_cons_iff a b as bs).mpr (Or.inl h))
    · subst h
      rcases lexLe_total as bs with ih | ih
      · exact Or.inl ((lexLe_cons_iff a a as bs).mpr (Or.inr ⟨rfl, ih⟩))
      · exact Or.inr ((lexLe_cons_iff a a bs as).mpr (Or.inr ⟨rfl, ih⟩))
    · exact Or.inr ((lexLe_cons_iff b a bs as).mpr (Or.inl h))

theorem lexLe_trans : ∀ as bs cs : List Char,
    lexLe as bs = true → lexLe bs cs = true → lexLe as cs = true
  | [], _, _ => by
    intro _ _
    rfl
  | _ :: _, [], _ => by
    intro h _
    exact absurd h (by simp [lexLe])
  | _ :: _, _ :: _, [] => by
    intro _ h
    exact absurd h (by simp [lexLe])
  | a :: as, b :: bs, c :: cs => by
    intro h1 h2
    rw [lexLe_cons_iff] at h1 h2 ⊢
    rcases h1 with h1 | ⟨h1, h1t⟩
    · rcases h2 with h2 | ⟨h2, h2t⟩
      · exact Or.inl (h1.trans h2)
      · exact Or.inl (h2 ▸ h1)
    · rcases h2 with h2 | ⟨h2, h2t⟩
      · exact Or.inl (h1 ▸ h2)
      · exact Or.inr ⟨h1.trans h2, lexLe_trans as bs cs h1t h2t⟩

theorem pySorted_sorted (l : List String) : List.Sorted pyStrLe (pySorted l) := by
  haveI : IsTotal String pyStrLe := ⟨fun a b => lexLe_total a.toList b.toList⟩
  haveI : IsTrans String pyStrLe := ⟨fun a b c => lexLe_trans a.toList b.toList c.toList⟩
  exact List.sorted_insertionSort pyStrLe l

theorem pySorted_perm (l : List String) : List.Perm (pySorted l) l :=
  List.perm_insertionSort pyStrLe l

end MapAction
